import Mathlib

/-!
Verification development for the IBM-Flight-System flight-environment
aggregation service.  The Go sources are shallowly embedded: pure helper
functions become Lean functions, the provider's `GetFlightEnvironment`
becomes a function that threads an explicit context model and returns the
ordered trace of the domain calls it performs together with its result,
and Go's `(value, error)` returns become `Except`.  Randomized payload
fields (the mock generators call `rand`) are abstracted as generator
arguments; every count, guard, validation and control-flow decision is
translated directly from the source.
-/

set_option autoImplicit false

namespace FlightSys

/-! ### Decimal parsing and formatting (strconv.Atoi / strconv.Itoa / fmt.Sscanf "%d") -/

/-- Value of an ASCII decimal digit character, `none` for non-digits. -/
def digitVal (c : Char) : Option Nat :=
  if '0' ≤ c ∧ c ≤ '9' then some (c.toNat - 48) else none

/-- Fuel-based worker for `natDigits`; the fuel always suffices because a
number has at most as many digits as its value. -/
def natDigitsAux : Nat → Nat → List Char
  | 0, _ => []
  | fuel + 1, n =>
    if n < 10 then [Nat.digitChar n]
    else natDigitsAux fuel (n / 10) ++ [Nat.digitChar (n % 10)]

/-- Decimal digit list of a natural number, most significant digit first
(the digit string produced by Go's `strconv.Itoa` for nonnegative values). -/
def natDigits (n : Nat) : List Char := natDigitsAux (n + 1) n

/-- Embedding of Go's `strconv.Itoa`. -/
def itoa : Int → String
  | Int.ofNat n => ⟨natDigits n⟩
  | Int.negSucc n => ⟨'-' :: natDigits (n + 1)⟩

/-- Fold an all-digit character list into a number; fails on the first
non-digit.  Helper for the embedding of `strconv.Atoi`. -/
def parseDigitsAux : List Char → Nat → Option Nat
  | [], acc => some acc
  | c :: cs, acc =>
    match digitVal c with
    | some d => parseDigitsAux cs (acc * 10 + d)
    | none => none

/-- Embedding of Go's `strconv.Atoi`: optional sign followed by at least
one digit, the whole string consumed; `none` on any malformed input. -/
def atoi (s : String) : Option Int :=
  match s.data with
  | [] => none
  | '+' :: rest =>
    if rest = [] then none else (parseDigitsAux rest 0).map Int.ofNat
  | '-' :: rest =>
    if rest = [] then none else (parseDigitsAux rest 0).map (fun n => -(n : Int))
  | l => (parseDigitsAux l 0).map Int.ofNat

/-- Consume the maximal digit run at the head of the list, accumulating its
value; stops at the first non-digit.  Helper for `fmt.Sscanf` with `%d`. -/
def scanDigitsAux : List Char → Nat → Nat
  | [], acc => acc
  | c :: cs, acc =>
    match digitVal c with
    | some d => scanDigitsAux cs (acc * 10 + d)
    | none => acc

/-- Embedding of `fmt.Sscanf(s, "%d", &x)` as used by the mock fetchers:
parses an optional sign and a digit run; if no digit can be read the
destination keeps its previous value `dflt`. -/
def sscanfD (s : String) (dflt : Int) : Int :=
  match s.data with
  | [] => dflt
  | c :: cs =>
    if c = '-' then
      match cs with
      | [] => dflt
      | c2 :: cs2 =>
        if (digitVal c2).isSome then -((scanDigitsAux (c2 :: cs2) 0 : Nat) : Int) else dflt
    else if c = '+' then
      match cs with
      | [] => dflt
      | c2 :: cs2 =>
        if (digitVal c2).isSome then ((scanDigitsAux (c2 :: cs2) 0 : Nat) : Int) else dflt
    else if (digitVal c).isSome then ((scanDigitsAux (c :: cs) 0 : Nat) : Int) else dflt

/-! ### Go map reads, modelled over association lists -/

/-- First-match lookup in an association list (the embedding of a read from
a Go `map[string]string`). -/
def lookupStr : List (String × String) → String → Option String
  | [], _ => none
  | (k, v) :: rest, key => if k = key then some v else lookupStr rest key

/-! ### Substring scanning (`containsKeywords` from the bridge server) -/

/-- Embedding of the inner scan of `containsKeywords`: Go checks
`text[i:i+len(kw)] == kw` for every start `i` from `0` to
`len(text)-len(kw)`, guarded by `len(text) >= len(kw)`. -/
def containsSubstring (text kw : List Char) : Bool :=
  if kw.length ≤ text.length then
    (List.range (text.length - kw.length + 1)).any fun i =>
      decide ((text.drop i).take kw.length = kw)
  else false

/-- Specification-level substring relation: `kw` occurs contiguously in
`text`. -/
def SubstrOf (kw text : List Char) : Prop :=
  ∃ s t : List Char, s ++ kw ++ t = text

/-- Embedding of the bridge server's `containsKeywords`: true when any of
the keywords occurs as a contiguous substring of the text. -/
def containsKeywords (text : String) (keywords : List String) : Bool :=
  keywords.any fun kw => containsSubstring text.data kw.data

/-! ### Data model (api_types.go, package main) -/

/-- Geographical location (`GeoPoint`); Go float64 fields become rationals. -/
structure GeoPoint where
  latitude : ℚ
  longitude : ℚ
deriving DecidableEq

/-- Aircraft record (`Aircraft` in api_types.go). -/
structure Aircraft where
  id : String
  aircraftType : String
  manufacturer : String
  model : String
  registration : String
  location : GeoPoint
  altitude : Int
  speed : Int
  heading : Int
  status : String
  lastUpdated : String
deriving DecidableEq

/-- Scheduled flight record (`Flight` in api_types.go). -/
structure Flight where
  flightNumber : String
  airline : String
  origin : String
  destination : String
  departureTime : String
  arrivalTime : String
  status : String
  aircraft : String
  distance : Int
  duration : Int
  gate : String
deriving DecidableEq

/-- Weather conditions at a location (`WeatherData` in api_types.go). -/
structure WeatherData where
  location : String
  temperature : ℚ
  windSpeed : ℚ
  windDirection : Int
  conditions : String
  visibility : ℚ
  pressure : ℚ
  humidity : Int
  precipitation : ℚ
  updated : String
deriving DecidableEq

/-- Single news article (`NewsArticle` in api_types.go). -/
structure NewsArticle where
  source : String
  title : String
  description : String
  url : String
  publishedAt : String
  relevance : Int
deriving DecidableEq

/-- Collection of news articles (`NewsResponse` in api_types.go). -/
structure NewsResponse where
  articles : List NewsArticle
  count : Int
  query : String
deriving DecidableEq

/-- Risk assessment for a country (`GeopoliticalRisk` in api_types.go). -/
structure GeopoliticalRisk where
  country : String
  riskLevel : Int
  factors : List String
  advisory : String
  lastUpdated : String
deriving DecidableEq

/-- Environmental impact data (`SustainabilityData` in api_types.go). -/
structure SustainabilityData where
  route : String
  distance : Int
  co2Emissions : ℚ
  fuelEfficiency : ℚ
  alternativeFuel : Bool
  noiseLevel : Int
  emissionsRating : String
deriving DecidableEq

/-- The aggregated snapshot (`FlightEnvironmentData` in the bridge server).
Go maps become association lists in insertion order; the nilable
`*NewsResponse` becomes an `Option`. -/
structure FlightEnvironmentData where
  aircraft : List Aircraft
  flights : List Flight
  weather : List (String × WeatherData)
  news : Option NewsResponse
  geopolitical : List (String × GeopoliticalRisk)
  sustainability : List (String × SustainabilityData)
  noFlyZones : List String
  timestamp : String
deriving DecidableEq

/-! ### No-fly-zone derivation (`extractNoFlyZones`, `removeDuplicates`) -/

/-- Alert vocabulary scanned by `extractNoFlyZones`. -/
def alertKeywords : List String :=
  ["airspace", "closed", "restricted", "military", "conflict"]

/-- Concatenated text scanned per article: `article.Title + " " + article.Description`. -/
def articleText (a : NewsArticle) : String :=
  a.title ++ " " ++ a.description

/-- Country codes contributed by one article: the three independent country
tests performed after the alert-vocabulary test, in source order. -/
def zonesOfArticle (a : NewsArticle) : List String :=
  if containsKeywords (articleText a) alertKeywords then
    (if containsKeywords (articleText a) ["Iran", "Iranian"] then ["IR"] else []) ++
    (if containsKeywords (articleText a) ["Russia", "Russian"] then ["RU"] else []) ++
    (if containsKeywords (articleText a) ["North Korea", "DPRK"] then ["KP"] else [])
  else []

/-- The article loop of `extractNoFlyZones`, appending each article's
contributions to the running list. -/
def collectZones (articles : List NewsArticle) : List String :=
  articles.foldl (fun acc a => acc ++ zonesOfArticle a) []

/-- Embedding of `removeDuplicates`: keeps the first occurrence of each
element (the `keys` map of the Go code always holds exactly the elements
already emitted into `result`). -/
def removeDuplicates (slice : List String) : List String :=
  slice.foldl (fun result item => if item ∈ result then result else result ++ [item]) []

/-- Embedding of `extractNoFlyZones`. -/
def extractNoFlyZones (news : NewsResponse) : List String :=
  removeDuplicates (collectZones news.articles)

/-! ### Context model

Go's `context.Context` is observed by the bridge server only through
`ctx.Done()` / `ctx.Err()`.  We model it by the instant (counted in emitted
trace events) at which it becomes done — `none` for a context that never
becomes done — together with the error `ctx.Err()` reports from then on. -/

/-- The two context errors (`context.Canceled`, `context.DeadlineExceeded`). -/
inductive CtxErr where
  | canceled
  | deadlineExceeded
deriving DecidableEq

/-- Context model: `doneAfter = some k` means the context is done at every
instant `t ≥ k`; `err` is what `ctx.Err()` returns once done. -/
structure Ctx where
  doneAfter : Option Nat
  err : CtxErr

/-- Whether the context is done at instant `t`. -/
def Ctx.isDone (ctx : Ctx) (t : Nat) : Bool :=
  match ctx.doneAfter with
  | none => false
  | some k => k ≤ t

/-! ### Trace events

One event is recorded per context check and per upstream call performed by
`GetFlightEnvironment`, in execution order.  The vocabulary also has a
`spawnTask` event for launching a concurrent task (a Go `go` statement);
the embedded function emits it exactly where the source launches one. -/

/-- Observable steps of a `GetFlightEnvironment` call. -/
inductive Ev where
  | check
  | spawnTask (domain : String)
  | callAircraft
  | callFlights
  | callWeather (airports : List String)
  | callNews (topics : List String)
  | callCountryRisk (country : String)
  | callSustainability (origin dest : String)
deriving DecidableEq

/-- Whether an event is an upstream domain call or sub-call. -/
def Ev.isCall : Ev → Bool
  | .check => false
  | .spawnTask _ => false
  | _ => true

/-! ### The provider's upstream surface

The six fetch operations `MockProvider.GetFlightEnvironment` performs,
abstracted as an oracle so that per-domain success and failure can be
quantified over; `(value, error)` returns become `Except`. -/

/-- Upstream operations used by `GetFlightEnvironment`. -/
structure Api where
  getAircraft : List (String × String) → Except String (List Aircraft)
  getFlights : List (String × String) → Except String (List Flight)
  getMultipleAirportsWeather : List String → Except String (List (String × WeatherData))
  getGeopoliticalNews : List String → Except String NewsResponse
  getCountryRisk : String → Except String GeopoliticalRisk
  getRouteEmissions : String → String → Except String SustainabilityData

/-- Fixed airport list of the weather fetch. -/
def majorAirports : List String := ["JFK", "LAX", "LHR", "CDG", "DXB"]

/-- Fixed topic list of the news fetch. -/
def newsTopics : List String := ["Iran", "Russia", "North Korea"]

/-- Fixed country list of the per-country risk loop. -/
def riskCountries : List String := ["US", "UK", "DE", "FR", "RU", "CN", "IR"]

/-- The count parameter: `params["aircraft_count"]` parsed with
`strconv.Atoi`, defaulting to 5 when absent or unparseable. -/
def countOf (params : List (String × String)) : Int :=
  match lookupStr params "aircraft_count" with
  | none => 5
  | some s =>
    match atoi s with
    | none => 5
    | some c => c

/-- The per-country risk loop: one `GetCountryRisk` sub-call per country,
a failed sub-call is logged and skipped, a successful one is inserted into
the map.  No context check occurs inside this loop.  Returns the emitted
events and the built map. -/
def riskLoop (api : Api) : List String → List Ev × List (String × GeopoliticalRisk)
  | [] => ([], [])
  | c :: rest =>
    let r := riskLoop api rest
    match api.getCountryRisk c with
    | .error _ => (Ev.callCountryRisk c :: r.1, r.2)
    | .ok risk => (Ev.callCountryRisk c :: r.1, (c, risk) :: r.2)

/-- The sustainability block: only when the route parameter is nonempty and
at least 7 characters long does the provider slice `route[:3]` and
`route[4:7]` and call `GetRouteEmissions`; a failed call leaves the map
empty.  Returns the emitted events and the built map. -/
def sustBlock (api : Api) (routeParam : String) :
    List Ev × List (String × SustainabilityData) :=
  if routeParam = "" then ([], [])
  else if 7 ≤ routeParam.data.length then
    let origin : String := ⟨routeParam.data.take 3⟩
    let dest : String := ⟨(routeParam.data.drop 4).take 3⟩
    match api.getRouteEmissions origin dest with
    | .error _ => ([Ev.callSustainability origin dest], [])
    | .ok s => ([Ev.callSustainability origin dest], [(routeParam, s)])
  else ([], [])

/-- Embedding of `MockProvider.GetFlightEnvironment`.  The snapshot starts
with every field at its zero value (the `make`d maps and the timestamp are
set up front), each domain fetch is preceded by a context check, a failed
fetch leaves its field untouched and is only logged, and the return value
is the snapshot with a nil error — unless a context check fires, in which
case `(nil, ctx.Err())` is returned.  The first component is the ordered
event trace; the context is consulted at the instant equal to the number
of events already emitted. -/
def getFlightEnvironment (api : Api) (ctx : Ctx) (now : String)
    (params : List (String × String)) : List Ev × Except CtxErr FlightEnvironmentData :=
  let routeParam := (lookupStr params "route").getD ""
  let count := countOf params
  let env0 : FlightEnvironmentData :=
    { aircraft := [], flights := [], weather := [], news := none,
      geopolitical := [], sustainability := [], noFlyZones := [], timestamp := now }
  if ctx.isDone 0 then ([Ev.check], Except.error ctx.err) else
  let env1 := match api.getAircraft [("limit", itoa count)] with
    | .error _ => env0
    | .ok a => { env0 with aircraft := a }
  if ctx.isDone 2 then ([Ev.check, Ev.callAircraft, Ev.check], Except.error ctx.err) else
  let env2 := match api.getFlights [("limit", itoa count)] with
    | .error _ => env1
    | .ok f => { env1 with flights := f }
  if ctx.isDone 4 then
    ([Ev.check, Ev.callAircraft, Ev.check, Ev.callFlights, Ev.check], Except.error ctx.err) else
  let env3 := match api.getMultipleAirportsWeather majorAirports with
    | .error _ => env2
    | .ok w => { env2 with weather := w }
  if ctx.isDone 6 then
    ([Ev.check, Ev.callAircraft, Ev.check, Ev.callFlights, Ev.check,
      Ev.callWeather majorAirports, Ev.check], Except.error ctx.err) else
  let env4 := match api.getGeopoliticalNews newsTopics with
    | .error _ => env3
    | .ok news => { env3 with news := some news, noFlyZones := extractNoFlyZones news }
  if ctx.isDone 8 then
    ([Ev.check, Ev.callAircraft, Ev.check, Ev.callFlights, Ev.check,
      Ev.callWeather majorAirports, Ev.check, Ev.callNews newsTopics, Ev.check],
     Except.error ctx.err) else
  let rl := riskLoop api riskCountries
  let env5 := { env4 with geopolitical := rl.2 }
  let sb := sustBlock api routeParam
  let env6 := { env5 with sustainability := sb.2 }
  ([Ev.check, Ev.callAircraft, Ev.check, Ev.callFlights, Ev.check,
    Ev.callWeather majorAirports, Ev.check, Ev.callNews newsTopics, Ev.check]
    ++ rl.1 ++ sb.1,
   Except.ok env6)

/-! ### Result summaries of a completed `getFlightEnvironment` run -/

/-- The route parameter as read by the provider (a missing key reads as the
empty string on a Go map). -/
def routeOf (params : List (String × String)) : String :=
  (lookupStr params "route").getD ""

/-- Event trace of a run during which the context never becomes done. -/
def gfeTrace (api : Api) (params : List (String × String)) : List Ev :=
  [Ev.check, Ev.callAircraft, Ev.check, Ev.callFlights, Ev.check,
   Ev.callWeather majorAirports, Ev.check, Ev.callNews newsTopics, Ev.check]
    ++ (riskLoop api riskCountries).1 ++ (sustBlock api (routeOf params)).1

/-- Snapshot assembled by a run during which the context never becomes
done: per field, the fetched data on success and the zero value on
failure. -/
def gfeSnapshot (api : Api) (now : String) (params : List (String × String)) :
    FlightEnvironmentData :=
  { aircraft :=
      match api.getAircraft [("limit", itoa (countOf params))] with
      | .error _ => []
      | .ok a => a,
    flights :=
      match api.getFlights [("limit", itoa (countOf params))] with
      | .error _ => []
      | .ok f => f,
    weather :=
      match api.getMultipleAirportsWeather majorAirports with
      | .error _ => []
      | .ok w => w,
    news :=
      match api.getGeopoliticalNews newsTopics with
      | .error _ => none
      | .ok n => some n,
    geopolitical := (riskLoop api riskCountries).2,
    sustainability := (sustBlock api (routeOf params)).2,
    noFlyZones :=
      match api.getGeopoliticalNews newsTopics with
      | .error _ => []
      | .ok n => extractNoFlyZones n,
    timestamp := now }

/-! ### The mock upstream clients (api_types.go)

The mock clients draw random payload fields (`rand.Intn`, `rand.Float64`)
and timestamps; those draws are abstracted as a generator record.  Record
counts, map keys, lookup tables and validation — everything the claims
depend on — are translated concretely. -/

/-- Go's `fmt.Sprintf("%v", slice)` for a string slice. -/
def fmtStringSlice (l : List String) : String :=
  "[" ++ String.intercalate " " l ++ "]"

/-- Abstracted random/clock draws of the mock clients. -/
structure MockGens where
  mkAircraft : Nat → Aircraft
  mkFlight : Nat → Flight
  mkWeather : String → WeatherData
  articleSource : String → String
  articleUrl : String → String
  articleTime : String → String
  articleRelevance : String → Int
  riskTime : String
  distFallback : String → Int
  co2Factor : String → ℚ
  fuelEff : String → ℚ
  altFuel : String → Bool
  noise : String → Int
  rating : String → String

/-- The `limit` parameter of the aircraft/flights mocks: default 5,
overwritten by `fmt.Sscanf(val, "%d", &limit)` when present. -/
def limitOf (params : List (String × String)) : Int :=
  match lookupStr params "limit" with
  | none => 5
  | some v => sscanfD v 5

/-- Embedding of `AircraftAPI.GetAircraft`: never fails, returns one
generated record per loop iteration (`for i := 0; i < limit; i++`). -/
def mockGetAircraft (g : MockGens) (params : List (String × String)) :
    Except String (List Aircraft) :=
  Except.ok ((List.range (limitOf params).toNat).map g.mkAircraft)

/-- Embedding of `FlightsAPI.GetFlights`: never fails, returns one
generated record per loop iteration. -/
def mockGetFlights (g : MockGens) (params : List (String × String)) :
    Except String (List Flight) :=
  Except.ok ((List.range (limitOf params).toNat).map g.mkFlight)

/-- Embedding of `WeatherAPI.GetMultipleAirportsWeather` (api_types.go):
never fails, one generated entry per requested airport. -/
def mockGetMultipleAirportsWeather (g : MockGens) (airports : List String) :
    Except String (List (String × WeatherData)) :=
  Except.ok (airports.map fun a => (a, g.mkWeather a))

/-- The `articlesByTopic` table of `NewsAPI.GetGeopoliticalNews`. -/
def topicTitles (topic : String) : Option (List String) :=
  if topic = "Iran" then
    some ["Iran restricts airspace access in northern region",
          "Airlines advised to avoid Iranian airspace amid tensions",
          "New diplomatic efforts to ease tensions in Iranian airspace"]
  else if topic = "Russia" then
    some ["Russia declares no-fly zone over parts of its western border",
          "Commercial flights diverted around Russian military exercises",
          "Negotiations ongoing to reopen eastern Russian airspace"]
  else if topic = "North Korea" then
    some ["North Korea missile tests prompt airspace concerns",
          "Airlines avoid North Korean airspace after recent activity",
          "ICAO issues advisory for DPRK flight information region"]
  else none

/-- One mock article built from a title (the description is formatted from
the title by the source). -/
def mkMockArticle (g : MockGens) (title : String) : NewsArticle :=
  { source := g.articleSource title,
    title := title,
    description := "Details about " ++ title ++ " and its impact on international aviation.",
    url := g.articleUrl title,
    publishedAt := g.articleTime title,
    relevance := g.articleRelevance title }

/-- Embedding of `NewsAPI.GetGeopoliticalNews`: never fails, appends the
table articles of each recognized topic in order. -/
def mockGetGeopoliticalNews (g : MockGens) (topics : List String) :
    Except String NewsResponse :=
  let articles := topics.foldl
    (fun acc t =>
      match topicTitles t with
      | some ts => acc ++ ts.map (mkMockArticle g)
      | none => acc) []
  Except.ok { articles := articles, count := articles.length,
              query := "topics:" ++ fmtStringSlice topics }

/-- The `riskFactors` table of `GeopoliticalAPI.GetCountryRisk`; a country
outside the table makes the call fail. -/
def riskFactorsOf (c : String) : Option (List String) :=
  if c = "US" then some ["Severe weather in some regions", "Occasional civil unrest"]
  else if c = "UK" then some ["Transportation strikes", "Heightened security at airports"]
  else if c = "DE" then some ["Border control issues", "Environmental protests"]
  else if c = "FR" then some ["Labor strikes", "Occasional protests"]
  else if c = "RU" then some ["Military activities", "Airspace restrictions", "Sanctions impact"]
  else if c = "CN" then some ["Airspace congestion", "Regional tensions", "Strict overflight regulations"]
  else if c = "IR" then some ["Military activity", "Political tensions", "International sanctions"]
  else none

/-- The `riskLevels` table (a missing key reads as 0 on a Go map). -/
def riskLevelOf (c : String) : Int :=
  if c = "US" then 2 else if c = "UK" then 2 else if c = "DE" then 2
  else if c = "FR" then 3 else if c = "RU" then 7 else if c = "CN" then 5
  else if c = "IR" then 8 else 0

/-- The `advisories` table (a missing key reads as the empty string). -/
def advisoryOf (c : String) : String :=
  if c = "US" then "Exercise normal precautions"
  else if c = "UK" then "Exercise normal precautions"
  else if c = "DE" then "Exercise normal precautions"
  else if c = "FR" then "Exercise increased caution"
  else if c = "RU" then "Reconsider travel"
  else if c = "CN" then "Exercise increased caution"
  else if c = "IR" then "Do not travel"
  else ""

/-- Embedding of `GeopoliticalAPI.GetCountryRisk`. -/
def mockGetCountryRisk (g : MockGens) (c : String) :
    Except String GeopoliticalRisk :=
  match riskFactorsOf c with
  | some fs =>
    Except.ok { country := c, riskLevel := riskLevelOf c, factors := fs,
                advisory := advisoryOf c, lastUpdated := g.riskTime }
  | none => Except.error "country not found"

/-- The `distances` table of `SustainabilityAPI.GetRouteEmissions`. -/
def routeDistance (r : String) : Option Int :=
  if r = "JFK-LAX" then some 3983 else if r = "LAX-JFK" then some 3983
  else if r = "LHR-JFK" then some 5541 else if r = "JFK-LHR" then some 5541
  else if r = "CDG-DXB" then some 5246 else if r = "DXB-CDG" then some 5246
  else if r = "SIN-SYD" then some 6293 else if r = "SYD-SIN" then some 6293
  else none

/-- Embedding of `SustainabilityAPI.GetRouteEmissions`: fails exactly when
either airport code is not 3 characters long; otherwise builds the route
record (CO2 is `distance * 0.2` times an abstracted random factor). -/
def mockGetRouteEmissions (g : MockGens) (origin dest : String) :
    Except String SustainabilityData :=
  if origin.length ≠ 3 ∨ dest.length ≠ 3 then
    Except.error "invalid airport code format"
  else
    let route := origin ++ "-" ++ dest
    let distance :=
      match routeDistance route with
      | some d => d
      | none => 1000 + g.distFallback route
    Except.ok { route := route, distance := distance,
                co2Emissions := (distance : ℚ) * (1 / 5) * g.co2Factor route,
                fuelEfficiency := g.fuelEff route,
                alternativeFuel := g.altFuel route,
                noiseLevel := 70 + g.noise route,
                emissionsRating := g.rating route }

/-- The full mock provider backend (`NewMockProvider`'s six clients). -/
def mkMockApi (g : MockGens) : Api :=
  { getAircraft := mockGetAircraft g,
    getFlights := mockGetFlights g,
    getMultipleAirportsWeather := mockGetMultipleAirportsWeather g,
    getGeopoliticalNews := mockGetGeopoliticalNews g,
    getCountryRisk := mockGetCountryRisk g,
    getRouteEmissions := mockGetRouteEmissions g }

/-! ### Concrete test fixtures (inputs for witnesses and counterexamples) -/

/-- A context that never becomes done. -/
def ctxLive : Ctx := { doneAfter := none, err := CtxErr.canceled }

/-- A context that becomes done at instant 10 — during the per-country
risk loop of a full run. -/
def ctx10 : Ctx := { doneAfter := some 10, err := CtxErr.canceled }

/-- A concrete upstream environment: list-valued fetches succeed with
empty data, per-country risk and emissions fail. -/
def apiTriv : Api :=
  { getAircraft := fun _ => Except.ok [],
    getFlights := fun _ => Except.ok [],
    getMultipleAirportsWeather := fun _ => Except.ok [],
    getGeopoliticalNews := fun _ =>
      Except.ok { articles := [], count := 0, query := "" },
    getCountryRisk := fun _ => Except.error "country not found",
    getRouteEmissions := fun _ _ => Except.error "invalid airport code format" }

/-- A fixed aircraft record used by the concrete generator instance. -/
def aircraft0 : Aircraft :=
  { id := "AC1000", aircraftType := "Commercial", manufacturer := "Boeing",
    model := "747-800", registration := "N100AA",
    location := { latitude := 0, longitude := 0 },
    altitude := 30000, speed := 400, heading := 0, status := "In Flight",
    lastUpdated := "2025-01-01T00:00:00Z" }

/-- A fixed flight record used by the concrete generator instance. -/
def flight0 : Flight :=
  { flightNumber := "Un1000", airline := "United", origin := "JFK",
    destination := "ORD", departureTime := "2025-01-01T00:00:00Z",
    arrivalTime := "2025-01-01T04:00:00Z", status := "On Time",
    aircraft := "AC1000", distance := 800, duration := 240, gate := "A1" }

/-- A fixed weather record used by the concrete generator instance. -/
def weather0 : WeatherData :=
  { location := "JFK", temperature := 15, windSpeed := 10, windDirection := 0,
    conditions := "Clear", visibility := 8, pressure := 1000, humidity := 50,
    precipitation := 0, updated := "2025-01-01T00:00:00Z" }

/-- A concrete generator instance with constant draws. -/
def gens0 : MockGens :=
  { mkAircraft := fun _ => aircraft0,
    mkFlight := fun _ => flight0,
    mkWeather := fun _ => weather0,
    articleSource := fun _ => "Reuters",
    articleUrl := fun _ => "https://example.com/news/0",
    articleTime := fun _ => "2025-01-01T00:00:00Z",
    articleRelevance := fun _ => 6,
    riskTime := "2025-01-01T00:00:00Z",
    distFallback := fun _ => 0,
    co2Factor := fun _ => 1,
    fuelEff := fun _ => 4,
    altFuel := fun _ => false,
    noise := fun _ => 0,
    rating := fun _ => "A" }

/-! ### Temporal predicate for the cancellation claims -/

/-- Every upstream call or sub-call in the trace starts at an instant at
which the context is not yet done. -/
def noCallWhileDone (ctx : Ctx) (tr : List Ev) : Prop :=
  ∀ i : Nat, i < tr.length → (tr.getD i Ev.check).isCall = true → ctx.isDone i = false

/-! ### Health check (`APIBridgeServer.healthCheck`) -/

/-- Body of the health-check response. -/
structure HealthResponse where
  status : String
  providers : List (String × String)
  timestamp : String
deriving DecidableEq

/-- Embedding of the `/health` handler, parameterized by the two providers'
`Ping()` results; returns the response body and the HTTP status code (the
handler writes 503 when a provider is unhealthy and otherwise leaves the
implicit 200). -/
def healthCheck (mockHealthy liveHealthy : Bool) (now : String) : HealthResponse × Nat :=
  let status := if mockHealthy && liveHealthy then "healthy" else "degraded"
  let mockStatus := if mockHealthy then "ok" else "error"
  let liveStatus := if liveHealthy then "ok" else "error"
  let code := if !mockHealthy || !liveHealthy then 503 else 200
  ({ status := status,
     providers := [("mock", mockStatus), ("live", liveStatus)],
     timestamp := now }, code)

/-! ### Weather suitability (clients/weather_api.go)

The clients package has its own `WeatherData` shape with a nested
`CurrentWeather` record; floats become rationals.  The suitability rule is
evaluated on one such record (the fetch that produces the record is
abstracted away, exactly as the surrounding `IsWeatherSuitableForFlight`
does after its `GetCurrentWeather` call succeeds). -/

/-- Temperature sub-record of the clients weather shape. -/
structure WTemperature where
  celsius : ℚ
  fahrenheit : ℚ
deriving DecidableEq

/-- Wind sub-record of the clients weather shape. -/
structure WWind where
  direction : Int
  speed : ℚ
  unit : String
deriving DecidableEq

/-- Visibility sub-record of the clients weather shape. -/
structure WVisibility where
  miles : ℚ
  meters : ℚ
deriving DecidableEq

/-- Pressure sub-record of the clients weather shape. -/
structure WPressure where
  inHg : ℚ
  hPa : ℚ
  kPa : ℚ
  millibar : ℚ
deriving DecidableEq

/-- Cloud layer record of the clients weather shape. -/
structure WCloudLayer where
  coverage : String
  description : String
  altitudeFt : Int
  altitudeM : Int
deriving DecidableEq

/-- The nested `CurrentWeather` record. -/
structure CurrentWeather where
  metar : String
  temperature : WTemperature
  wind : WWind
  visibility : WVisibility
  pressure : WPressure
  humidity : ℚ
  conditions : String
  cloudCover : List WCloudLayer
  weatherCategory : String
deriving DecidableEq

/-- The clients package `WeatherData` (forecast entries are kept as their
TAF strings; no claim depends on the other forecast fields). -/
structure ClientWeatherData where
  airportICAO : String
  airportIATA : String
  airportName : String
  latitude : ℚ
  longitude : ℚ
  currentWeather : CurrentWeather
  forecastTAFs : List String
  lastUpdated : String
deriving DecidableEq

/-- The reasons list built by `IsWeatherSuitableForFlight`: one entry per
violated rule, appended in source order. -/
def weatherReasons (w : ClientWeatherData) : List String :=
  (if w.currentWeather.visibility.miles < 3 then ["Low visibility"] else []) ++
  (if 35 < w.currentWeather.wind.speed then ["High wind speed"] else []) ++
  (if w.currentWeather.weatherCategory = "LIFR" ∨ w.currentWeather.weatherCategory = "IFR"
    then ["Poor weather category"] else [])

/-- Embedding of the evaluation part of `IsWeatherSuitableForFlight`:
suitability boolean plus the human-readable reason string (Go renders the
reasons slice with `%v`). -/
def isWeatherSuitableForFlight (w : ClientWeatherData) : Bool × String :=
  let reasons := weatherReasons w
  let suitable := reasons.length == 0
  if suitable then (suitable, "Weather conditions suitable for flight")
  else (suitable, "Unsuitable due to: " ++ fmtStringSlice reasons)

/-- The spec's test record: visibility 2 miles, wind 10 kt, an otherwise
benign report (VFR category). -/
def lowVisRecord : ClientWeatherData :=
  { airportICAO := "KJFK", airportIATA := "JFK", airportName := "JFK Airport",
    latitude := 40, longitude := -73,
    currentWeather :=
      { metar := "", temperature := { celsius := 15, fahrenheit := 59 },
        wind := { direction := 0, speed := 10, unit := "knots" },
        visibility := { miles := 2, meters := 3218 },
        pressure := { inHg := 29, hPa := 1013, kPa := 101, millibar := 1013 },
        humidity := 50, conditions := "Clear", cloudCover := [],
        weatherCategory := "VFR" },
    forecastTAFs := [], lastUpdated := "2025-01-01T00:00:00Z" }

/-! ### Concrete articles for the no-fly-zone examples -/

/-- Article whose text contains "Iranian airspace closed". -/
def articleIranAlert : NewsArticle :=
  { source := "Reuters", title := "Iranian airspace closed", description := "",
    url := "", publishedAt := "", relevance := 0 }

/-- Article whose text contains "Iran" but no alert keyword. -/
def articleIranOnly : NewsArticle :=
  { source := "Reuters", title := "Iran", description := "",
    url := "", publishedAt := "", relevance := 0 }

/-- Response holding only the alerting article. -/
def newsIranAlert : NewsResponse :=
  { articles := [articleIranAlert], count := 1, query := "" }

/-- Response holding only the non-alerting article. -/
def newsIranOnly : NewsResponse :=
  { articles := [articleIranOnly], count := 1, query := "" }

/-- Every upstream call or sub-call in the trace has a context check as the
event immediately before it. -/
def callsPrecededByCheck (tr : List Ev) : Prop :=
  ∀ i : Nat, i < tr.length → (tr.getD i Ev.check).isCall = true →
    0 < i ∧ tr.getD (i - 1) Ev.check = Ev.check

/-! ## Lemmas, claim theorems, witnesses and counterexamples -/

theorem natDigitsAux_congr (n : Nat) :
    ∀ f1 f2 : Nat, n < f1 → n < f2 → natDigitsAux f1 n = natDigitsAux f2 n := by
  induction n using Nat.strong_induction_on with
  | _ n ih =>
    intro f1 f2 h1 h2
    match f1, f2 with
    | a + 1, b + 1 =>
      simp only [natDigitsAux]
      split
      · rfl
      · rename_i hge
        have hdiv : n / 10 < n := Nat.div_lt_self (by omega) (by omega)
        rw [ih (n / 10) hdiv a b (by omega) (by omega)]

/-- Unfolding equation of `natDigits`. -/
theorem natDigits_eq (n : Nat) :
    natDigits n =
      if n < 10 then [Nat.digitChar n]
      else natDigits (n / 10) ++ [Nat.digitChar (n % 10)] := by
  show natDigitsAux (n + 1) n = _
  rw [natDigitsAux]
  split
  · rfl
  · rename_i hge
    have hdiv : n / 10 < n := Nat.div_lt_self (by omega) (by omega)
    rw [natDigitsAux_congr (n / 10) n (n / 10 + 1) (by omega) (by omega)]
    rfl

/-! ### Basic lemmas about the scanners -/

theorem containsSubstring_iff (text kw : List Char) :
    containsSubstring text kw = true ↔ SubstrOf kw text := by
  constructor
  · intro h
    unfold containsSubstring at h
    split at h
    · rcases List.any_eq_true.mp h with ⟨i, _, hi⟩
      have hi' : (text.drop i).take kw.length = kw := of_decide_eq_true hi
      refine ⟨text.take i, (text.drop i).drop kw.length, ?_⟩
      calc text.take i ++ kw ++ (text.drop i).drop kw.length
          = text.take i ++ ((text.drop i).take kw.length ++ (text.drop i).drop kw.length) := by
            rw [hi']; simp
        _ = text.take i ++ text.drop i := by rw [List.take_append_drop]
        _ = text := List.take_append_drop i text
    · exact absurd h (by simp)
  · rintro ⟨s, t, rfl⟩
    unfold containsSubstring
    have hle : kw.length ≤ (s ++ kw ++ t).length := by simp; omega
    rw [if_pos hle]
    apply List.any_eq_true.mpr
    refine ⟨s.length, ?_, ?_⟩
    · apply List.mem_range.mpr
      simp
      omega
    · apply decide_eq_true
      have h1 : (s ++ kw ++ t).drop s.length = kw ++ t := by
        rw [List.append_assoc, List.drop_left]
      rw [h1, List.take_left]

theorem containsKeywords_iff (text : String) (keywords : List String) :
    containsKeywords text keywords = true ↔
      ∃ kw ∈ keywords, SubstrOf kw.data text.data := by
  unfold containsKeywords
  rw [List.any_eq_true]
  constructor
  · rintro ⟨kw, hmem, h⟩
    exact ⟨kw, hmem, (containsSubstring_iff _ _).mp h⟩
  · rintro ⟨kw, hmem, h⟩
    exact ⟨kw, hmem, (containsSubstring_iff _ _).mpr h⟩

theorem digitVal_digitChar : ∀ d : Nat, d < 10 → digitVal (Nat.digitChar d) = some d := by
  decide

theorem natDigits_all_digits (n : Nat) :
    ∀ c ∈ natDigits n, (digitVal c).isSome = true := by
  induction n using Nat.strong_induction_on with
  | _ n ih =>
    rw [natDigits_eq]
    split
    · intro c hc
      rcases List.mem_singleton.mp hc with rfl
      rw [digitVal_digitChar _ (by omega)]
      rfl
    · intro c hc
      rcases List.mem_append.mp hc with h | h
      · exact ih (n / 10) (Nat.div_lt_self (by omega) (by omega)) c h
      · rcases List.mem_singleton.mp h with rfl
        rw [digitVal_digitChar _ (Nat.mod_lt _ (by omega))]
        rfl

theorem natDigits_ne_nil (n : Nat) : natDigits n ≠ [] := by
  rw [natDigits_eq]
  split
  · simp
  · simp

theorem scanDigitsAux_append (xs ys : List Char) (acc : Nat)
    (h : ∀ c ∈ xs, (digitVal c).isSome = true) :
    scanDigitsAux (xs ++ ys) acc = scanDigitsAux ys (scanDigitsAux xs acc) := by
  induction xs generalizing acc with
  | nil => simp [scanDigitsAux]
  | cons c cs ihc =>
    have hc : (digitVal c).isSome = true := h c (List.mem_cons_self _ _)
    rcases Option.isSome_iff_exists.mp hc with ⟨d, hd⟩
    simp only [List.cons_append, scanDigitsAux, hd]
    exact ihc _ (fun x hx => h x (List.mem_cons_of_mem _ hx))

theorem scanDigitsAux_natDigits (n : Nat) :
    ∀ acc : Nat, scanDigitsAux (natDigits n) acc = acc * 10 ^ (natDigits n).length + n := by
  induction n using Nat.strong_induction_on with
  | _ n ih =>
    intro acc
    rw [natDigits_eq]
    split
    · rename_i h
      have hd := digitVal_digitChar n h
      simp [scanDigitsAux, hd]
    · rename_i h
      have hdiv : n / 10 < n := Nat.div_lt_self (by omega) (by omega)
      have hmod := digitVal_digitChar (n % 10) (Nat.mod_lt _ (by omega))
      rw [scanDigitsAux_append _ _ _ (natDigits_all_digits (n / 10))]
      simp only [scanDigitsAux, hmod]
      rw [ih (n / 10) hdiv acc]
      simp only [List.length_append, List.length_singleton]
      have hpow : 10 ^ ((natDigits (n / 10)).length + 1) =
          10 ^ (natDigits (n / 10)).length * 10 := pow_succ 10 _
      rw [hpow]
      have := Nat.div_add_mod n 10
      ring_nf
      omega

theorem sscanfD_natDigits (n : Nat) (dflt : Int) :
    sscanfD ⟨natDigits n⟩ dflt = (n : Int) := by
  rcases h : natDigits n with _ | ⟨c, cs⟩
  · exact absurd h (natDigits_ne_nil n)
  · have hc : (digitVal c).isSome = true := by
      apply natDigits_all_digits n
      rw [h]
      exact List.mem_cons_self _ _
    have hm : c ≠ '-' := by
      intro hcm
      rw [hcm] at hc
      exact absurd hc (by decide)
    have hp : c ≠ '+' := by
      intro hcp
      rw [hcp] at hc
      exact absurd hc (by decide)
    show sscanfD ⟨c :: cs⟩ dflt = (n : Int)
    simp only [sscanfD, if_neg hm, if_neg hp, hc, if_pos]
    rw [← h, scanDigitsAux_natDigits n 0]
    simp

theorem sscanfD_itoa (n : Nat) (dflt : Int) :
    sscanfD (itoa (n : Int)) dflt = (n : Int) := by
  show sscanfD ⟨natDigits n⟩ dflt = (n : Int)
  exact sscanfD_natDigits n dflt

theorem removeDuplicates_foldl_mem (l : List String) (acc : List String) (x : String) :
    x ∈ l.foldl (fun result item => if item ∈ result then result else result ++ [item]) acc ↔
      x ∈ acc ∨ x ∈ l := by
  induction l generalizing acc with
  | nil => simp
  | cons a as ih =>
    simp only [List.foldl_cons, ih, List.mem_cons]
    split
    · rename_i hmem
      constructor
      · rintro (h | h)
        · exact Or.inl h
        · exact Or.inr (Or.inr h)
      · rintro (h | rfl | h)
        · exact Or.inl h
        · exact Or.inl hmem
        · exact Or.inr h
    · simp only [List.mem_append, List.mem_singleton]
      tauto

theorem mem_removeDuplicates (l : List String) (x : String) :
    x ∈ removeDuplicates l ↔ x ∈ l := by
  unfold removeDuplicates
  rw [removeDuplicates_foldl_mem]
  simp

theorem removeDuplicates_foldl_nodup (l : List String) (acc : List String)
    (h : acc.Nodup) :
    (l.foldl (fun result item => if item ∈ result then result else result ++ [item]) acc).Nodup := by
  induction l generalizing acc with
  | nil => simpa using h
  | cons a as ih =>
    simp only [List.foldl_cons]
    split
    · exact ih acc h
    · rename_i hnot
      apply ih
      simp [List.nodup_append, h, hnot]

theorem nodup_removeDuplicates (l : List String) : (removeDuplicates l).Nodup :=
  removeDuplicates_foldl_nodup l [] List.nodup_nil

theorem mem_collectZones (articles : List NewsArticle) (z : String) :
    z ∈ collectZones articles ↔ ∃ a ∈ articles, z ∈ zonesOfArticle a := by
  unfold collectZones
  have key : ∀ (l : List NewsArticle) (acc : List String),
      z ∈ l.foldl (fun acc a => acc ++ zonesOfArticle a) acc ↔
        z ∈ acc ∨ ∃ a ∈ l, z ∈ zonesOfArticle a := by
    intro l
    induction l with
    | nil => simp
    | cons a as ih =>
      intro acc
      simp only [List.foldl_cons, ih, List.mem_append, List.mem_cons]
      constructor
      · rintro ((h | h) | ⟨b, hb, hz⟩)
        · exact Or.inl h
        · exact Or.inr ⟨a, Or.inl rfl, h⟩
        · exact Or.inr ⟨b, Or.inr hb, hz⟩
      · rintro (h | ⟨b, rfl | hb, hz⟩)
        · exact Or.inl (Or.inl h)
        · exact Or.inl (Or.inr hz)
        · exact Or.inr ⟨b, hb, hz⟩
  rw [key]
  simp

theorem mem_zonesOfArticle (a : NewsArticle) (z : String) :
    z ∈ zonesOfArticle a ↔
      containsKeywords (articleText a) alertKeywords = true ∧
        ((z = "IR" ∧ containsKeywords (articleText a) ["Iran", "Iranian"] = true) ∨
         (z = "RU" ∧ containsKeywords (articleText a) ["Russia", "Russian"] = true) ∨
         (z = "KP" ∧ containsKeywords (articleText a) ["North Korea", "DPRK"] = true)) := by
  unfold zonesOfArticle
  split
  · rename_i halert
    simp only [halert, true_and, List.mem_append]
    constructor
    · rintro ((h | h) | h)
      · split at h
        · rename_i hk
          rcases List.mem_singleton.mp h with rfl
          exact Or.inl ⟨rfl, hk⟩
        · exact absurd h (List.not_mem_nil z)
      · split at h
        · rename_i hk
          rcases List.mem_singleton.mp h with rfl
          exact Or.inr (Or.inl ⟨rfl, hk⟩)
        · exact absurd h (List.not_mem_nil z)
      · split at h
        · rename_i hk
          rcases List.mem_singleton.mp h with rfl
          exact Or.inr (Or.inr ⟨rfl, hk⟩)
        · exact absurd h (List.not_mem_nil z)
    · rintro (⟨rfl, hk⟩ | ⟨rfl, hk⟩ | ⟨rfl, hk⟩)
      · exact Or.inl (Or.inl (by simp [hk]))
      · exact Or.inl (Or.inr (by simp [hk]))
      · exact Or.inr (by simp [hk])
  · rename_i halert
    simp only [List.not_mem_nil, false_iff]
    intro hcon
    exact halert hcon.1

/-- Membership characterization of the derived no-fly-zone set. -/
theorem mem_extractNoFlyZones (news : NewsResponse) (z : String) :
    z ∈ extractNoFlyZones news ↔
      ∃ a ∈ news.articles,
        containsKeywords (articleText a) alertKeywords = true ∧
          ((z = "IR" ∧ containsKeywords (articleText a) ["Iran", "Iranian"] = true) ∨
           (z = "RU" ∧ containsKeywords (articleText a) ["Russia", "Russian"] = true) ∨
           (z = "KP" ∧ containsKeywords (articleText a) ["North Korea", "DPRK"] = true)) := by
  unfold extractNoFlyZones
  rw [mem_removeDuplicates, mem_collectZones]
  constructor
  · rintro ⟨a, ha, hz⟩
    exact ⟨a, ha, (mem_zonesOfArticle a z).mp hz⟩
  · rintro ⟨a, ha, hz⟩
    exact ⟨a, ha, (mem_zonesOfArticle a z).mpr hz⟩

theorem Ctx.isDone_mono (ctx : Ctx) {s t : Nat} (hst : s ≤ t)
    (h : ctx.isDone t = false) : ctx.isDone s = false := by
  rcases hda : ctx.doneAfter with _ | k
  · unfold Ctx.isDone
    rw [hda]
  · unfold Ctx.isDone at h ⊢
    rw [hda] at h ⊢
    have h' := of_decide_eq_false h
    exact decide_eq_false (by omega)

/-- When the context never fires through instant 8 (the last check), the
call runs to completion: it returns a nil error together with the
per-field assembled snapshot, and its trace is the full sequential one. -/
theorem gfe_ok_spec (api : Api) (ctx : Ctx) (now : String)
    (params : List (String × String)) (h8 : ctx.isDone 8 = false) :
    getFlightEnvironment api ctx now params =
      (gfeTrace api params, Except.ok (gfeSnapshot api now params)) := by
  have h0 : ctx.isDone 0 = false := ctx.isDone_mono (by omega) h8
  have h2 : ctx.isDone 2 = false := ctx.isDone_mono (by omega) h8
  have h4 : ctx.isDone 4 = false := ctx.isDone_mono (by omega) h8
  have h6 : ctx.isDone 6 = false := ctx.isDone_mono (by omega) h8
  unfold getFlightEnvironment gfeTrace gfeSnapshot routeOf
  simp only [h0, h2, h4, h6, h8, Bool.false_eq_true, if_false]
  rcases api.getAircraft [("limit", itoa (countOf params))] with e1 | a <;>
    rcases api.getFlights [("limit", itoa (countOf params))] with e2 | f <;>
      rcases api.getMultipleAirportsWeather majorAirports with e3 | w <;>
        rcases api.getGeopoliticalNews newsTopics with e4 | nw <;>
          rfl

/-- Trace of the per-country risk loop: one `callCountryRisk` event per
country, in list order, whether or not the sub-call succeeds. -/
theorem riskLoop_trace (api : Api) (cs : List String) :
    (riskLoop api cs).1 = cs.map Ev.callCountryRisk := by
  induction cs with
  | nil => rfl
  | cons c rest ih =>
    unfold riskLoop
    rcases api.getCountryRisk c with e | r <;> simp [ih]

/-- Map built by the per-country risk loop: exactly the countries whose
sub-call succeeded, with their fetched record, in list order. -/
theorem riskLoop_map (api : Api) (cs : List String) :
    (riskLoop api cs).2 =
      cs.foldr (fun c acc =>
        match api.getCountryRisk c with
        | .error _ => acc
        | .ok r => (c, r) :: acc) [] := by
  induction cs with
  | nil => rfl
  | cons c rest ih =>
    unfold riskLoop
    rcases h : api.getCountryRisk c with e | r <;> simp [ih, h]

/-- Every fatal result of `getFlightEnvironment` is the context's error:
no other error value is ever returned. -/
theorem gfe_error_is_ctx_err (api : Api) (ctx : Ctx) (now : String)
    (params : List (String × String)) (e : CtxErr)
    (he : (getFlightEnvironment api ctx now params).2 = Except.error e) :
    e = ctx.err := by
  by_cases h8 : ctx.isDone 8 = false
  · rw [gfe_ok_spec api ctx now params h8] at he
    exact absurd he (by simp)
  · have h8' : ctx.isDone 8 = true := by
      revert h8
      cases ctx.isDone 8 <;> simp
    unfold getFlightEnvironment at he
    split_ifs at he <;> simp_all

/-- A call with a context that is done on entry aborts at the first check:
it performs no domain call and returns `(nil, ctx.Err())`. -/
theorem gfe_done_at_entry (api : Api) (ctx : Ctx) (now : String)
    (params : List (String × String)) (h0 : ctx.isDone 0 = true) :
    getFlightEnvironment api ctx now params = ([Ev.check], Except.error ctx.err) := by
  unfold getFlightEnvironment
  simp [h0]

/-- C2: if the supplied context is already canceled or expired when
`GetFlightEnvironment` is called, the call aborts at the first check,
performing no domain call and returning the context's own error (the
deadline-exceeded error for an expired deadline) with no snapshot; and
context cancellation/expiry is the sole fatal condition — every error the
call can return is the context's error. -/
theorem getFlightEnvironment_ctx_done_sole_fatal (api : Api) (ctx : Ctx)
    (now : String) (params : List (String × String)) :
    (ctx.isDone 0 = true →
      getFlightEnvironment api ctx now params = ([Ev.check], Except.error ctx.err)) ∧
    (∀ e, (getFlightEnvironment api ctx now params).2 = Except.error e → e = ctx.err) :=
  ⟨gfe_done_at_entry api ctx now params, gfe_error_is_ctx_err api ctx now params⟩

/-- Witness for C2 at a context whose deadline expired before the call. -/
theorem getFlightEnvironment_ctx_done_sole_fatal_witness :
    getFlightEnvironment apiTriv { doneAfter := some 0, err := CtxErr.deadlineExceeded } "t" [] =
      ([Ev.check], Except.error CtxErr.deadlineExceeded) :=
  (getFlightEnvironment_ctx_done_sole_fatal apiTriv
    { doneAfter := some 0, err := CtxErr.deadlineExceeded } "t" []).1 (by rfl)

/-- C4: the derived no-fly-zone collection contains exactly the codes for
which some article's concatenated title+description holds at least one
alert term and a country-name substring mapped to that code, and it is
duplicate-free. -/
theorem extractNoFlyZones_spec (news : NewsResponse) (c : String) :
    (c ∈ extractNoFlyZones news ↔
      ∃ a ∈ news.articles,
        (∃ kw ∈ alertKeywords, SubstrOf kw.data (articleText a).data) ∧
          ((c = "IR" ∧ ∃ kw ∈ (["Iran", "Iranian"] : List String),
              SubstrOf kw.data (articleText a).data) ∨
           (c = "RU" ∧ ∃ kw ∈ (["Russia", "Russian"] : List String),
              SubstrOf kw.data (articleText a).data) ∨
           (c = "KP" ∧ ∃ kw ∈ (["North Korea", "DPRK"] : List String),
              SubstrOf kw.data (articleText a).data))) ∧
      (extractNoFlyZones news).Nodup := by
  constructor
  · rw [mem_extractNoFlyZones]
    simp only [containsKeywords_iff]
  · exact nodup_removeDuplicates _

/-- C5: viewed as a set, no-fly-zone derivation is invariant under
permutation of the article list; deriving again from the same articles
(whatever the other response metadata) yields the same result; an article
containing "Iranian airspace closed" yields a set containing IR; an
article containing only "Iran" and no alert keyword yields a set not
containing IR. -/
theorem extractNoFlyZones_perm_idem :
    (∀ r1 r2 : NewsResponse, r1.articles.Perm r2.articles →
      ∀ c, c ∈ extractNoFlyZones r1 ↔ c ∈ extractNoFlyZones r2) ∧
    (∀ r1 r2 : NewsResponse, r1.articles = r2.articles →
      extractNoFlyZones r1 = extractNoFlyZones r2) ∧
    "IR" ∈ extractNoFlyZones newsIranAlert ∧
    "IR" ∉ extractNoFlyZones newsIranOnly := by
  refine ⟨?_, ?_, ?_, ?_⟩
  · intro r1 r2 hp c
    rw [mem_extractNoFlyZones, mem_extractNoFlyZones]
    constructor
    · rintro ⟨a, ha, h⟩
      exact ⟨a, hp.subset ha, h⟩
    · rintro ⟨a, ha, h⟩
      exact ⟨a, hp.symm.subset ha, h⟩
  · intro r1 r2 h
    unfold extractNoFlyZones collectZones
    rw [h]
  · decide
  · decide

/-- Witness for C5: two concrete responses whose article lists are
permutations of each other classify IR identically. -/
theorem extractNoFlyZones_perm_idem_witness :
    "IR" ∈ extractNoFlyZones
        { articles := [articleIranOnly, articleIranAlert], count := 2, query := "" } ↔
      "IR" ∈ extractNoFlyZones
        { articles := [articleIranAlert, articleIranOnly], count := 2, query := "" } :=
  extractNoFlyZones_perm_idem.1
    { articles := [articleIranOnly, articleIranAlert], count := 2, query := "" }
    { articles := [articleIranAlert, articleIranOnly], count := 2, query := "" }
    (by decide) "IR"

/-- C6: on one weather record the suitability rule reports unsuitable
exactly when visibility is below 3 miles, wind exceeds 35 knots, or the
category is LIFR or IFR; its reasons list holds one entry per violated
rule (all of them, not only the first); and on the spec's record with
visibility 2 miles and wind 10 kt it reports unsuitable with a reason
mentioning low visibility only. -/
theorem isWeatherSuitableForFlight_spec (w : ClientWeatherData) :
    ((isWeatherSuitableForFlight w).1 = false ↔
      (w.currentWeather.visibility.miles < 3 ∨ 35 < w.currentWeather.wind.speed ∨
       w.currentWeather.weatherCategory = "LIFR" ∨
       w.currentWeather.weatherCategory = "IFR")) ∧
    ("Low visibility" ∈ weatherReasons w ↔ w.currentWeather.visibility.miles < 3) ∧
    ("High wind speed" ∈ weatherReasons w ↔ 35 < w.currentWeather.wind.speed) ∧
    ("Poor weather category" ∈ weatherReasons w ↔
      (w.currentWeather.weatherCategory = "LIFR" ∨
       w.currentWeather.weatherCategory = "IFR")) ∧
    isWeatherSuitableForFlight lowVisRecord =
      (false, "Unsuitable due to: [Low visibility]") := by
  refine ⟨?_, ?_, ?_, ?_, by decide⟩
  · unfold isWeatherSuitableForFlight weatherReasons
    split_ifs <;> simp_all
  · unfold weatherReasons
    split_ifs <;> simp_all
  · unfold weatherReasons
    split_ifs <;> simp_all
  · unfold weatherReasons
    split_ifs <;> simp_all

/-- C9: the health endpoint reports healthy with HTTP 200 exactly when
both providers ping true, and degraded with HTTP 503 otherwise, with a
per-provider ok/error entry for each of mock and live in the body. -/
theorem healthCheck_spec (m l : Bool) (now : String) :
    ((healthCheck m l now).1.status = "healthy" ↔ (m = true ∧ l = true)) ∧
    ((healthCheck m l now).1.status = "degraded" ↔ ¬(m = true ∧ l = true)) ∧
    ((healthCheck m l now).2 = 200 ↔ (m = true ∧ l = true)) ∧
    ((healthCheck m l now).2 = 503 ↔ ¬(m = true ∧ l = true)) ∧
    lookupStr (healthCheck m l now).1.providers "mock" =
      some (if m then "ok" else "error") ∧
    lookupStr (healthCheck m l now).1.providers "live" =
      some (if l then "ok" else "error") := by
  cases m <;> cases l <;>
    refine ⟨?_, ?_, ?_, ?_, ?_, ?_⟩ <;>
      simp [healthCheck, lookupStr]

/-- Aircraft mock applied to the limit parameter the provider passes:
exactly one generated record per requested count. -/
theorem mockGetAircraft_itoa (g : MockGens) (c : Nat) :
    mockGetAircraft g [("limit", itoa (c : Int))] =
      Except.ok ((List.range c).map g.mkAircraft) := by
  unfold mockGetAircraft limitOf
  simp [lookupStr, sscanfD_itoa]

/-- Flights mock applied to the limit parameter the provider passes. -/
theorem mockGetFlights_itoa (g : MockGens) (c : Nat) :
    mockGetFlights g [("limit", itoa (c : Int))] =
      Except.ok ((List.range c).map g.mkFlight) := by
  unfold mockGetFlights limitOf
  simp [lookupStr, sscanfD_itoa]

/-- C1: whenever the context stays live, whatever subset (not all) of the
six domain fetches fail, the call still returns a nil error with a
structurally complete snapshot: each failed domain's field keeps its zero
value (empty list, empty map, nil news), each successful domain's field
holds exactly the fetched data, and the failures are not propagated. -/
theorem getFlightEnvironment_partial_failure (api : Api) (ctx : Ctx)
    (now : String) (params : List (String × String))
    (hlive : ∀ t, ctx.isDone t = false)
    (_hnotall : ¬ ((∃ e, api.getAircraft [("limit", itoa (countOf params))] = Except.error e) ∧
        (∃ e, api.getFlights [("limit", itoa (countOf params))] = Except.error e) ∧
        (∃ e, api.getMultipleAirportsWeather majorAirports = Except.error e) ∧
        (∃ e, api.getGeopoliticalNews newsTopics = Except.error e) ∧
        (∀ c ∈ riskCountries, ∃ e, api.getCountryRisk c = Except.error e) ∧
        (∀ o d s, api.getRouteEmissions o d ≠ Except.ok s))) :
    ∃ env : FlightEnvironmentData,
      (getFlightEnvironment api ctx now params).2 = Except.ok env ∧
      (∀ e, api.getAircraft [("limit", itoa (countOf params))] = Except.error e →
        env.aircraft = []) ∧
      (∀ a, api.getAircraft [("limit", itoa (countOf params))] = Except.ok a →
        env.aircraft = a) ∧
      (∀ e, api.getFlights [("limit", itoa (countOf params))] = Except.error e →
        env.flights = []) ∧
      (∀ f, api.getFlights [("limit", itoa (countOf params))] = Except.ok f →
        env.flights = f) ∧
      (∀ e, api.getMultipleAirportsWeather majorAirports = Except.error e →
        env.weather = []) ∧
      (∀ w, api.getMultipleAirportsWeather majorAirports = Except.ok w →
        env.weather = w) ∧
      (∀ e, api.getGeopoliticalNews newsTopics = Except.error e →
        env.news = none ∧ env.noFlyZones = []) ∧
      (∀ n, api.getGeopoliticalNews newsTopics = Except.ok n →
        env.news = some n ∧ env.noFlyZones = extractNoFlyZones n) ∧
      env.geopolitical = (riskLoop api riskCountries).2 ∧
      env.sustainability = (sustBlock api (routeOf params)).2 ∧
      env.timestamp = now := by
  refine ⟨gfeSnapshot api now params,
    congrArg Prod.snd (gfe_ok_spec api ctx now params (hlive 8)),
    ?_, ?_, ?_, ?_, ?_, ?_, ?_, ?_, rfl, rfl, rfl⟩
  · intro e h
    simp [gfeSnapshot, h]
  · intro a h
    simp [gfeSnapshot, h]
  · intro e h
    simp [gfeSnapshot, h]
  · intro f h
    simp [gfeSnapshot, h]
  · intro e h
    simp [gfeSnapshot, h]
  · intro w h
    simp [gfeSnapshot, h]
  · intro e h
    constructor <;> simp [gfeSnapshot, h]
  · intro n h
    constructor <;> simp [gfeSnapshot, h]

/-- Witness for C1: run against the mock backend, where no domain fails. -/
theorem getFlightEnvironment_partial_failure_witness :
    ∃ env : FlightEnvironmentData,
      (getFlightEnvironment (mkMockApi gens0) ctxLive "t" []).2 = Except.ok env ∧
      (∀ e, (mkMockApi gens0).getAircraft [("limit", itoa (countOf []))] = Except.error e →
        env.aircraft = []) ∧
      (∀ a, (mkMockApi gens0).getAircraft [("limit", itoa (countOf []))] = Except.ok a →
        env.aircraft = a) ∧
      (∀ e, (mkMockApi gens0).getFlights [("limit", itoa (countOf []))] = Except.error e →
        env.flights = []) ∧
      (∀ f, (mkMockApi gens0).getFlights [("limit", itoa (countOf []))] = Except.ok f →
        env.flights = f) ∧
      (∀ e, (mkMockApi gens0).getMultipleAirportsWeather majorAirports = Except.error e →
        env.weather = []) ∧
      (∀ w, (mkMockApi gens0).getMultipleAirportsWeather majorAirports = Except.ok w →
        env.weather = w) ∧
      (∀ e, (mkMockApi gens0).getGeopoliticalNews newsTopics = Except.error e →
        env.news = none ∧ env.noFlyZones = []) ∧
      (∀ n, (mkMockApi gens0).getGeopoliticalNews newsTopics = Except.ok n →
        env.news = some n ∧ env.noFlyZones = extractNoFlyZones n) ∧
      env.geopolitical = (riskLoop (mkMockApi gens0) riskCountries).2 ∧
      env.sustainability = (sustBlock (mkMockApi gens0) (routeOf [])).2 ∧
      env.timestamp = "t" :=
  getFlightEnvironment_partial_failure (mkMockApi gens0) ctxLive "t" []
    (fun _ => rfl)
    (by
      rintro ⟨⟨e, he⟩, -⟩
      exact absurd he (by simp [mkMockApi, mockGetAircraft]))

/-- C3: against the mock backend, a request carrying `aircraft_count = n`
for a nonnegative integer literal yields exactly `n` aircraft and `n`
flight records; a missing or unparseable `aircraft_count` falls back to
the default 5 instead of being rejected. -/
theorem getFlightEnvironment_count (g : MockGens) (ctx : Ctx) (now : String)
    (params : List (String × String)) (hlive : ctx.isDone 8 = false) :
    (∀ (s : String) (n : Nat),
      lookupStr params "aircraft_count" = some s → atoi s = some (n : Int) →
      ∃ env, (getFlightEnvironment (mkMockApi g) ctx now params).2 = Except.ok env ∧
        env.aircraft.length = n ∧ env.flights.length = n) ∧
    (lookupStr params "aircraft_count" = none →
      ∃ env, (getFlightEnvironment (mkMockApi g) ctx now params).2 = Except.ok env ∧
        env.aircraft.length = 5 ∧ env.flights.length = 5) ∧
    (∀ s, lookupStr params "aircraft_count" = some s → atoi s = none →
      ∃ env, (getFlightEnvironment (mkMockApi g) ctx now params).2 = Except.ok env ∧
        env.aircraft.length = 5 ∧ env.flights.length = 5) := by
  have key : ∀ n : Nat, countOf params = (n : Int) →
      ∃ env, (getFlightEnvironment (mkMockApi g) ctx now params).2 = Except.ok env ∧
        env.aircraft.length = n ∧ env.flights.length = n := by
    intro n hc
    refine ⟨gfeSnapshot (mkMockApi g) now params,
      congrArg Prod.snd (gfe_ok_spec (mkMockApi g) ctx now params hlive), ?_, ?_⟩
    · show (match (mkMockApi g).getAircraft [("limit", itoa (countOf params))] with
        | .error _ => ([] : List Aircraft)
        | .ok a => a).length = n
      rw [hc]
      show (match mockGetAircraft g [("limit", itoa (n : Int))] with
        | .error _ => ([] : List Aircraft)
        | .ok a => a).length = n
      rw [mockGetAircraft_itoa]
      simp
    · show (match (mkMockApi g).getFlights [("limit", itoa (countOf params))] with
        | .error _ => ([] : List Flight)
        | .ok f => f).length = n
      rw [hc]
      show (match mockGetFlights g [("limit", itoa (n : Int))] with
        | .error _ => ([] : List Flight)
        | .ok f => f).length = n
      rw [mockGetFlights_itoa]
      simp
  refine ⟨?_, ?_, ?_⟩
  · intro s n hs hn
    apply key
    unfold countOf
    rw [hs]
    show (match atoi s with
      | none => (5 : Int)
      | some c => c) = (n : Int)
    rw [hn]
  · intro hs
    apply key 5
    unfold countOf
    rw [hs]
    rfl
  · intro s hs hn
    apply key 5
    unfold countOf
    rw [hs]
    show (match atoi s with
      | none => (5 : Int)
      | some c => c) = ((5 : Nat) : Int)
    rw [hn]
    rfl

/-- Witness for C3 at `aircraft_count = 3`. -/
theorem getFlightEnvironment_count_witness :
    ∃ env, (getFlightEnvironment (mkMockApi gens0) ctxLive "t"
        [("aircraft_count", "3")]).2 = Except.ok env ∧
      env.aircraft.length = 3 ∧ env.flights.length = 3 :=
  (getFlightEnvironment_count gens0 ctxLive "t" [("aircraft_count", "3")]
    (by rfl)).1 "3" 3 (by decide) (by decide)

/-- The sustainability block emits no spawn event. -/
theorem spawnTask_not_mem_sustBlock (api : Api) (r : String) (d : String) :
    Ev.spawnTask d ∉ (sustBlock api r).1 := by
  unfold sustBlock
  split_ifs
  · simp
  · rcases h : api.getRouteEmissions ⟨r.data.take 3⟩ ⟨(r.data.drop 4).take 3⟩ with e | s <;>
      simp [h]
  · simp

/-- C7 counterexample: at a concrete input (a live context, a route
parameter present), the provider's trace contains no task-launch event for
any of the six domains — the claimed per-domain concurrent tasks are never
spawned. -/
theorem getFlightEnvironment_spawn_counterexample :
    ¬ (Ev.spawnTask "aircraft" ∈
          (getFlightEnvironment apiTriv ctxLive "t" [("route", "JFK-LAX")]).1 ∧
       Ev.spawnTask "flights" ∈
          (getFlightEnvironment apiTriv ctxLive "t" [("route", "JFK-LAX")]).1 ∧
       Ev.spawnTask "weather" ∈
          (getFlightEnvironment apiTriv ctxLive "t" [("route", "JFK-LAX")]).1 ∧
       Ev.spawnTask "news" ∈
          (getFlightEnvironment apiTriv ctxLive "t" [("route", "JFK-LAX")]).1 ∧
       Ev.spawnTask "geopolitical" ∈
          (getFlightEnvironment apiTriv ctxLive "t" [("route", "JFK-LAX")]).1 ∧
       Ev.spawnTask "sustainability" ∈
          (getFlightEnvironment apiTriv ctxLive "t" [("route", "JFK-LAX")]).1) := by
  decide

/-- C7 amended: `GetFlightEnvironment` performs the six domain fetches
sequentially on the calling task, in the fixed order aircraft, flights,
weather, news, per-country risk, route sustainability — spawning no
concurrent task — with each fetch's result written into its own disjoint
snapshot field, and every fetch completed before the call returns. -/
theorem getFlightEnvironment_sequential (api : Api) (ctx : Ctx) (now : String)
    (params : List (String × String)) (hlive : ctx.isDone 8 = false) :
    (getFlightEnvironment api ctx now params).1 =
      [Ev.check, Ev.callAircraft, Ev.check, Ev.callFlights, Ev.check,
       Ev.callWeather majorAirports, Ev.check, Ev.callNews newsTopics, Ev.check]
        ++ riskCountries.map Ev.callCountryRisk ++ (sustBlock api (routeOf params)).1 ∧
    (∀ d, Ev.spawnTask d ∉ (getFlightEnvironment api ctx now params).1) ∧
    (getFlightEnvironment api ctx now params).2 =
      Except.ok (gfeSnapshot api now params) := by
  rw [gfe_ok_spec api ctx now params hlive]
  refine ⟨?_, ?_, rfl⟩
  · show gfeTrace api params = _
    unfold gfeTrace
    rw [riskLoop_trace]
  · intro d
    show Ev.spawnTask d ∉ gfeTrace api params
    unfold gfeTrace
    rw [riskLoop_trace]
    intro hmem
    rcases List.mem_append.mp hmem with h | h
    · rcases List.mem_append.mp h with h' | h'
      · simp at h'
      · rcases List.mem_map.mp h' with ⟨c, _, hc⟩
        exact Ev.noConfusion hc
    · exact spawnTask_not_mem_sustBlock api (routeOf params) d h

/-- Witness for C7 amended, at a concrete live-context run. -/
theorem getFlightEnvironment_sequential_witness :
    (getFlightEnvironment apiTriv ctxLive "t" []).1 =
      [Ev.check, Ev.callAircraft, Ev.check, Ev.callFlights, Ev.check,
       Ev.callWeather majorAirports, Ev.check, Ev.callNews newsTopics, Ev.check]
        ++ riskCountries.map Ev.callCountryRisk ++ (sustBlock apiTriv (routeOf [])).1 ∧
    Ev.spawnTask "aircraft" ∉ (getFlightEnvironment apiTriv ctxLive "t" []).1 ∧
    (getFlightEnvironment apiTriv ctxLive "t" []).2 =
      Except.ok (gfeSnapshot apiTriv "t" []) :=
  ⟨(getFlightEnvironment_sequential apiTriv ctxLive "t" [] (by rfl)).1,
   (getFlightEnvironment_sequential apiTriv ctxLive "t" [] (by rfl)).2.1 "aircraft",
   (getFlightEnvironment_sequential apiTriv ctxLive "t" [] (by rfl)).2.2⟩

/-- C8 counterexample: at a concrete input whose context becomes done
during the per-country risk loop, the trace violates the claim — the
per-country sub-calls are not each preceded by a context check, and
sub-calls keep starting after the context is done. -/
theorem getFlightEnvironment_subcall_check_counterexample :
    ¬ (callsPrecededByCheck (getFlightEnvironment apiTriv ctx10 "t" []).1 ∧
       noCallWhileDone ctx10 (getFlightEnvironment apiTriv ctx10 "t" []).1) := by
  unfold callsPrecededByCheck noCallWhileDone
  decide

/-- C8 amended: the context is checked at exactly five points — before the
aircraft, flights, weather, news and country-risk fetches.  If the context
is done at one of those checks, the call aborts there, starts no further
domain call, and returns the context's error.  There is no check between
the per-country (or per-airport) sub-calls nor before the sustainability
call, so once the country-risk loop has begun the remaining sub-calls and
the sustainability call all run even if the context becomes done
mid-loop. -/
theorem getFlightEnvironment_check_granularity (api : Api) (ctx : Ctx)
    (now : String) (params : List (String × String)) :
    (ctx.isDone 0 = true →
      getFlightEnvironment api ctx now params = ([Ev.check], Except.error ctx.err)) ∧
    (ctx.isDone 0 = false → ctx.isDone 2 = true →
      getFlightEnvironment api ctx now params =
        ([Ev.check, Ev.callAircraft, Ev.check], Except.error ctx.err)) ∧
    (ctx.isDone 2 = false → ctx.isDone 4 = true →
      getFlightEnvironment api ctx now params =
        ([Ev.check, Ev.callAircraft, Ev.check, Ev.callFlights, Ev.check],
         Except.error ctx.err)) ∧
    (ctx.isDone 4 = false → ctx.isDone 6 = true →
      getFlightEnvironment api ctx now params =
        ([Ev.check, Ev.callAircraft, Ev.check, Ev.callFlights, Ev.check,
          Ev.callWeather majorAirports, Ev.check], Except.error ctx.err)) ∧
    (ctx.isDone 6 = false → ctx.isDone 8 = true →
      getFlightEnvironment api ctx now params =
        ([Ev.check, Ev.callAircraft, Ev.check, Ev.callFlights, Ev.check,
          Ev.callWeather majorAirports, Ev.check, Ev.callNews newsTopics, Ev.check],
         Except.error ctx.err)) ∧
    (ctx.isDone 8 = false →
      (getFlightEnvironment api ctx now params).1 =
        [Ev.check, Ev.callAircraft, Ev.check, Ev.callFlights, Ev.check,
         Ev.callWeather majorAirports, Ev.check, Ev.callNews newsTopics, Ev.check]
          ++ riskCountries.map Ev.callCountryRisk ++ (sustBlock api (routeOf params)).1 ∧
      (getFlightEnvironment api ctx now params).2 =
        Except.ok (gfeSnapshot api now params)) := by
  refine ⟨gfe_done_at_entry api ctx now params, ?_, ?_, ?_, ?_, ?_⟩
  · intro h0 h2
    unfold getFlightEnvironment
    simp [h0, h2]
  · intro h2 h4
    have h0 : ctx.isDone 0 = false := ctx.isDone_mono (by omega) h2
    unfold getFlightEnvironment
    simp [h0, h2, h4]
  · intro h4 h6
    have h0 : ctx.isDone 0 = false := ctx.isDone_mono (by omega) h4
    have h2 : ctx.isDone 2 = false := ctx.isDone_mono (by omega) h4
    unfold getFlightEnvironment
    simp [h0, h2, h4, h6]
  · intro h6 h8
    have h0 : ctx.isDone 0 = false := ctx.isDone_mono (by omega) h6
    have h2 : ctx.isDone 2 = false := ctx.isDone_mono (by omega) h6
    have h4 : ctx.isDone 4 = false := ctx.isDone_mono (by omega) h6
    unfold getFlightEnvironment
    simp [h0, h2, h4, h6, h8]
  · intro h8
    rw [gfe_ok_spec api ctx now params h8]
    refine ⟨?_, rfl⟩
    show gfeTrace api params = _
    unfold gfeTrace
    rw [riskLoop_trace]

/-- Witness for C8 amended: a context that becomes done at instant 10
(mid-loop) still yields the full run, all seven risk sub-calls included. -/
theorem getFlightEnvironment_check_granularity_witness :
    (getFlightEnvironment apiTriv ctx10 "t" []).1 =
      [Ev.check, Ev.callAircraft, Ev.check, Ev.callFlights, Ev.check,
       Ev.callWeather majorAirports, Ev.check, Ev.callNews newsTopics, Ev.check]
        ++ riskCountries.map Ev.callCountryRisk ++ (sustBlock apiTriv (routeOf [])).1 ∧
    (getFlightEnvironment apiTriv ctx10 "t" []).2 =
      Except.ok (gfeSnapshot apiTriv "t" []) :=
  (getFlightEnvironment_check_granularity apiTriv ctx10 "t" []).2.2.2.2.2 (by rfl)

/-- C10: the provider slices the route parameter only under the guard
`len(route) >= 7`; the two slices then have exactly 3 characters each, so
`GetRouteEmissions`' length-3 validation accepts them, and with a live
context the call succeeds with the route's emissions entry; when the route
parameter is absent or shorter than 7 characters, no slicing happens and
the snapshot's sustainability field is the empty map, with no error. -/
theorem getFlightEnvironment_route_safe (g : MockGens) (ctx : Ctx)
    (now : String) (params : List (String × String)) (hlive : ctx.isDone 8 = false) :
    (7 ≤ (routeOf params).data.length →
      ((routeOf params).data.take 3).length = 3 ∧
      (((routeOf params).data.drop 4).take 3).length = 3 ∧
      ∃ s, mockGetRouteEmissions g ⟨(routeOf params).data.take 3⟩
          ⟨((routeOf params).data.drop 4).take 3⟩ = Except.ok s ∧
        ∃ env, (getFlightEnvironment (mkMockApi g) ctx now params).2 = Except.ok env ∧
          env.sustainability = [(routeOf params, s)]) ∧
    ((routeOf params).data.length < 7 →
      ∃ env, (getFlightEnvironment (mkMockApi g) ctx now params).2 = Except.ok env ∧
        env.sustainability = []) := by
  constructor
  · intro h7
    have hlen1 : ((routeOf params).data.take 3).length = 3 := by
      rw [List.length_take]
      omega
    have hlen2 : (((routeOf params).data.drop 4).take 3).length = 3 := by
      rw [List.length_take, List.length_drop]
      omega
    have hcond : ¬ ((⟨(routeOf params).data.take 3⟩ : String).length ≠ 3 ∨
        (⟨((routeOf params).data.drop 4).take 3⟩ : String).length ≠ 3) := by
      show ¬ (((routeOf params).data.take 3).length ≠ 3 ∨
        (((routeOf params).data.drop 4).take 3).length ≠ 3)
      simp [hlen1, hlen2]
    have hne : routeOf params ≠ "" := by
      intro he
      rw [he] at h7
      simp at h7
    rcases hem : mockGetRouteEmissions g ⟨(routeOf params).data.take 3⟩
        ⟨((routeOf params).data.drop 4).take 3⟩ with e | s
    · exfalso
      unfold mockGetRouteEmissions at hem
      rw [if_neg hcond] at hem
      exact Except.noConfusion hem
    · refine ⟨hlen1, hlen2, s, rfl, gfeSnapshot (mkMockApi g) now params,
        congrArg Prod.snd (gfe_ok_spec (mkMockApi g) ctx now params hlive), ?_⟩
      show (sustBlock (mkMockApi g) (routeOf params)).2 = [(routeOf params, s)]
      unfold sustBlock
      rw [if_neg hne, if_pos h7]
      show (match mockGetRouteEmissions g ⟨(routeOf params).data.take 3⟩
          ⟨((routeOf params).data.drop 4).take 3⟩ with
        | Except.error _ =>
          ([Ev.callSustainability ⟨(routeOf params).data.take 3⟩
              ⟨((routeOf params).data.drop 4).take 3⟩],
           ([] : List (String × SustainabilityData)))
        | Except.ok s =>
          ([Ev.callSustainability ⟨(routeOf params).data.take 3⟩
              ⟨((routeOf params).data.drop 4).take 3⟩],
           [((routeOf params), s)])).2 = [(routeOf params, s)]
      rw [hem]
  · intro h7
    refine ⟨gfeSnapshot (mkMockApi g) now params,
      congrArg Prod.snd (gfe_ok_spec (mkMockApi g) ctx now params hlive), ?_⟩
    show (sustBlock (mkMockApi g) (routeOf params)).2 = []
    unfold sustBlock
    by_cases hroute : routeOf params = ""
    · rw [if_pos hroute]
    · rw [if_neg hroute, if_neg (by omega : ¬ 7 ≤ (routeOf params).data.length)]

/-- Witness for C10 at `route = JFK-LAX`. -/
theorem getFlightEnvironment_route_safe_witness :
    ((routeOf [("route", "JFK-LAX")]).data.take 3).length = 3 ∧
    (((routeOf [("route", "JFK-LAX")]).data.drop 4).take 3).length = 3 ∧
    ∃ s, mockGetRouteEmissions gens0 ⟨(routeOf [("route", "JFK-LAX")]).data.take 3⟩
        ⟨((routeOf [("route", "JFK-LAX")]).data.drop 4).take 3⟩ = Except.ok s ∧
      ∃ env, (getFlightEnvironment (mkMockApi gens0) ctxLive "t"
          [("route", "JFK-LAX")]).2 = Except.ok env ∧
        env.sustainability = [(routeOf [("route", "JFK-LAX")], s)] :=
  (getFlightEnvironment_route_safe gens0 ctxLive "t" [("route", "JFK-LAX")]
    (by rfl)).1 (by decide)

end FlightSys
